import Mathlib

/-!
Verification development for the units-and-values repository.

Shallow embedding of `src/units.rs` (namespace `UnitsRs`) and
`src/values.rs` (namespace `ValuesRs`).  Rust `f64` values are modelled
as exact rationals (`ℚ`); `panic!`-branches are modelled as `Option.none`.

`src/values.rs` is written against a second draft of the unit module
(a `UnitEnum` sum type together with three-argument
`convert(value, from, to)` unit methods, a `MassUnit` containing `Grams`,
a `BearingUnit` and an `AccelerationUnit`).  That draft is not present
under `src/`; it is modelled from the spec in namespace `UDraft`, with
each modelled definition carrying a `Modelled from the spec:` comment.
-/

namespace UnitsRs

/-- Length units of `src/units.rs` (enum `LengthUnit`). -/
inductive LengthUnit
  | Millimeters
  | Centimeters
  | Meters
  | Kilometers
  | Inches
  | Feet
  | Yards
  | StatuteMiles
  | NauticalMiles
deriving DecidableEq, Repr

/-- Abbreviation of a length unit (`LengthUnit::abbr`). -/
def LengthUnit.abbr : LengthUnit → String
  | .Millimeters => "mm"
  | .Centimeters => "cm"
  | .Meters => "m"
  | .Kilometers => "km"
  | .Inches => "in"
  | .Feet => "ft"
  | .Yards => "yd"
  | .StatuteMiles => "mi"
  | .NauticalMiles => "nmi"

/-- Full name of a length unit (`LengthUnit::name`). -/
def LengthUnit.name : LengthUnit → String
  | .Millimeters => "Millimeters"
  | .Centimeters => "Centimeters"
  | .Meters => "Meters"
  | .Kilometers => "Kilometers"
  | .Inches => "Inches"
  | .Feet => "Feet"
  | .Yards => "Yards"
  | .StatuteMiles => "Statute Miles"
  | .NauticalMiles => "Nautical Miles"

/-- Combined form (`UnitOfMeasure::name_and_abbr` default method). -/
def LengthUnit.name_and_abbr (u : LengthUnit) : String :=
  u.name ++ " (" ++ u.abbr ++ ")"

/-- Two-step conversion (`LengthUnit::convert`): first to the base unit
(meters), then to the target unit. -/
def LengthUnit.convert (self : LengthUnit) (value : ℚ) (to_unit : LengthUnit) : ℚ :=
  let length_meters :=
    match self with
    | .Millimeters => value / 1000
    | .Centimeters => value / 100
    | .Meters => value
    | .Kilometers => value * 1000
    | .Inches => value / 39.3701
    | .Feet => value / 3.28084
    | .Yards => value / 1.09361
    | .StatuteMiles => value / 0.000621371
    | .NauticalMiles => value / 0.000539957
  match to_unit with
  | .Millimeters => length_meters * 1000
  | .Centimeters => length_meters * 100
  | .Meters => length_meters
  | .Kilometers => length_meters / 1000
  | .Inches => length_meters * 39.3701
  | .Feet => length_meters * 3.28084
  | .Yards => length_meters * 1.09361
  | .StatuteMiles => length_meters * 0.000621371
  | .NauticalMiles => length_meters * 0.000539957

/-- String lookup (`LengthUnit::from_str`): sequential exact matches
against abbr, name and name-and-abbr of each variant. -/
def LengthUnit.from_str (unit_str : String) : Option LengthUnit :=
  if unit_str = LengthUnit.Millimeters.abbr ∨ unit_str = LengthUnit.Millimeters.name ∨ unit_str = LengthUnit.Millimeters.name_and_abbr then some .Millimeters
  else if unit_str = LengthUnit.Centimeters.abbr ∨ unit_str = LengthUnit.Centimeters.name ∨ unit_str = LengthUnit.Centimeters.name_and_abbr then some .Centimeters
  else if unit_str = LengthUnit.Meters.abbr ∨ unit_str = LengthUnit.Meters.name ∨ unit_str = LengthUnit.Meters.name_and_abbr then some .Meters
  else if unit_str = LengthUnit.Kilometers.abbr ∨ unit_str = LengthUnit.Kilometers.name ∨ unit_str = LengthUnit.Kilometers.name_and_abbr then some .Kilometers
  else if unit_str = LengthUnit.Inches.abbr ∨ unit_str = LengthUnit.Inches.name ∨ unit_str = LengthUnit.Inches.name_and_abbr then some .Inches
  else if unit_str = LengthUnit.Feet.abbr ∨ unit_str = LengthUnit.Feet.name ∨ unit_str = LengthUnit.Feet.name_and_abbr then some .Feet
  else if unit_str = LengthUnit.Yards.abbr ∨ unit_str = LengthUnit.Yards.name ∨ unit_str = LengthUnit.Yards.name_and_abbr then some .Yards
  else if unit_str = LengthUnit.StatuteMiles.abbr ∨ unit_str = LengthUnit.StatuteMiles.name ∨ unit_str = LengthUnit.StatuteMiles.name_and_abbr then some .StatuteMiles
  else if unit_str = LengthUnit.NauticalMiles.abbr ∨ unit_str = LengthUnit.NauticalMiles.name ∨ unit_str = LengthUnit.NauticalMiles.name_and_abbr then some .NauticalMiles
  else none

/-- Default length unit (`LengthUnit::default`). -/
def LengthUnit.default : LengthUnit := .Meters

/-- Mass units of `src/units.rs` (enum `MassUnit`). -/
inductive MassUnit
  | Kilograms
  | PoundsMass
deriving DecidableEq, Repr

/-- Abbreviation of a mass unit (`MassUnit::abbr`). -/
def MassUnit.abbr : MassUnit → String
  | .Kilograms => "kg"
  | .PoundsMass => "lb"

/-- Full name of a mass unit (`MassUnit::name`). -/
def MassUnit.name : MassUnit → String
  | .Kilograms => "Kilograms"
  | .PoundsMass => "Pounds"

/-- Combined form for mass units. -/
def MassUnit.name_and_abbr (u : MassUnit) : String :=
  u.name ++ " (" ++ u.abbr ++ ")"

/-- Two-step conversion (`MassUnit::convert`) via kilograms. -/
def MassUnit.convert (self : MassUnit) (value : ℚ) (to_unit : MassUnit) : ℚ :=
  let mass_kilograms :=
    match self with
    | .Kilograms => value
    | .PoundsMass => value / 2.20462
  match to_unit with
  | .Kilograms => mass_kilograms
  | .PoundsMass => mass_kilograms * 2.20462

/-- String lookup (`MassUnit::from_str`). -/
def MassUnit.from_str (unit_str : String) : Option MassUnit :=
  if unit_str = MassUnit.Kilograms.abbr ∨ unit_str = MassUnit.Kilograms.name ∨ unit_str = MassUnit.Kilograms.name_and_abbr then some .Kilograms
  else if unit_str = MassUnit.PoundsMass.abbr ∨ unit_str = MassUnit.PoundsMass.name ∨ unit_str = MassUnit.PoundsMass.name_and_abbr then some .PoundsMass
  else none

/-- Default mass unit (`MassUnit::default`). -/
def MassUnit.default : MassUnit := .Kilograms

/-- Time units of `src/units.rs` (enum `TimeUnit`). -/
inductive TimeUnit
  | Seconds
  | Minutes
  | Hours
  | Days
  | Weeks
  | Years
deriving DecidableEq, Repr

/-- Abbreviation of a time unit (`TimeUnit::abbr`). -/
def TimeUnit.abbr : TimeUnit → String
  | .Seconds => "s"
  | .Minutes => "min"
  | .Hours => "hr"
  | .Days => "d"
  | .Weeks => "wk"
  | .Years => "yr"

/-- Full name of a time unit (`TimeUnit::name`). -/
def TimeUnit.name : TimeUnit → String
  | .Seconds => "Seconds"
  | .Minutes => "Minutes"
  | .Hours => "Hours"
  | .Days => "Days"
  | .Weeks => "Weeks"
  | .Years => "Years"

/-- Combined form for time units. -/
def TimeUnit.name_and_abbr (u : TimeUnit) : String :=
  u.name ++ " (" ++ u.abbr ++ ")"

/-- Two-step conversion (`TimeUnit::convert`) via seconds. -/
def TimeUnit.convert (self : TimeUnit) (value : ℚ) (to_unit : TimeUnit) : ℚ :=
  let time_seconds :=
    match self with
    | .Seconds => value
    | .Minutes => value * 60
    | .Hours => value * 3600
    | .Days => value * 86400
    | .Weeks => value * 604800
    | .Years => value * 31536000
  match to_unit with
  | .Seconds => time_seconds
  | .Minutes => time_seconds / 60
  | .Hours => time_seconds / 3600
  | .Days => time_seconds / 86400
  | .Weeks => time_seconds / 604800
  | .Years => time_seconds / 31536000

/-- String lookup (`TimeUnit::from_str`). -/
def TimeUnit.from_str (unit_str : String) : Option TimeUnit :=
  if unit_str = TimeUnit.Seconds.abbr ∨ unit_str = TimeUnit.Seconds.name ∨ unit_str = TimeUnit.Seconds.name_and_abbr then some .Seconds
  else if unit_str = TimeUnit.Minutes.abbr ∨ unit_str = TimeUnit.Minutes.name ∨ unit_str = TimeUnit.Minutes.name_and_abbr then some .Minutes
  else if unit_str = TimeUnit.Hours.abbr ∨ unit_str = TimeUnit.Hours.name ∨ unit_str = TimeUnit.Hours.name_and_abbr then some .Hours
  else if unit_str = TimeUnit.Days.abbr ∨ unit_str = TimeUnit.Days.name ∨ unit_str = TimeUnit.Days.name_and_abbr then some .Days
  else if unit_str = TimeUnit.Weeks.abbr ∨ unit_str = TimeUnit.Weeks.name ∨ unit_str = TimeUnit.Weeks.name_and_abbr then some .Weeks
  else if unit_str = TimeUnit.Years.abbr ∨ unit_str = TimeUnit.Years.name ∨ unit_str = TimeUnit.Years.name_and_abbr then some .Years
  else none

/-- Default time unit (`TimeUnit::default`). -/
def TimeUnit.default : TimeUnit := .Seconds

/-- Temperature units of `src/units.rs` (enum `TemperatureUnit`). -/
inductive TemperatureUnit
  | Kelvin
  | Celsius
  | Fahrenheit
  | Rankine
deriving DecidableEq, Repr

/-- Abbreviation of a temperature unit (`TemperatureUnit::abbr`). -/
def TemperatureUnit.abbr : TemperatureUnit → String
  | .Kelvin => "K"
  | .Celsius => "°C"
  | .Fahrenheit => "°F"
  | .Rankine => "°R"

/-- Full name of a temperature unit (`TemperatureUnit::name`). -/
def TemperatureUnit.name : TemperatureUnit → String
  | .Kelvin => "Kelvin"
  | .Celsius => "Celsius"
  | .Fahrenheit => "Fahrenheit"
  | .Rankine => "Rankine"

/-- Combined form for temperature units. -/
def TemperatureUnit.name_and_abbr (u : TemperatureUnit) : String :=
  u.name ++ " (" ++ u.abbr ++ ")"

/-- Affine two-step conversion (`TemperatureUnit::convert`) via Kelvin. -/
def TemperatureUnit.convert (self : TemperatureUnit) (value : ℚ) (to_unit : TemperatureUnit) : ℚ :=
  let temp_kelvin :=
    match self with
    | .Kelvin => value
    | .Celsius => value + 273.15
    | .Fahrenheit => (value + 459.67) * 5 / 9
    | .Rankine => value * 5 / 9
  match to_unit with
  | .Kelvin => temp_kelvin
  | .Celsius => temp_kelvin - 273.15
  | .Fahrenheit => temp_kelvin * 9 / 5 - 459.67
  | .Rankine => temp_kelvin * 9 / 5

/-- String lookup (`TemperatureUnit::from_str`). -/
def TemperatureUnit.from_str (unit_str : String) : Option TemperatureUnit :=
  if unit_str = TemperatureUnit.Kelvin.abbr ∨ unit_str = TemperatureUnit.Kelvin.name ∨ unit_str = TemperatureUnit.Kelvin.name_and_abbr then some .Kelvin
  else if unit_str = TemperatureUnit.Celsius.abbr ∨ unit_str = TemperatureUnit.Celsius.name ∨ unit_str = TemperatureUnit.Celsius.name_and_abbr then some .Celsius
  else if unit_str = TemperatureUnit.Fahrenheit.abbr ∨ unit_str = TemperatureUnit.Fahrenheit.name ∨ unit_str = TemperatureUnit.Fahrenheit.name_and_abbr then some .Fahrenheit
  else if unit_str = TemperatureUnit.Rankine.abbr ∨ unit_str = TemperatureUnit.Rankine.name ∨ unit_str = TemperatureUnit.Rankine.name_and_abbr then some .Rankine
  else none

/-- Default temperature unit (`TemperatureUnit::default`). -/
def TemperatureUnit.default : TemperatureUnit := .Kelvin

/-- Velocity units of `src/units.rs` (enum `VelocityUnit`). -/
inductive VelocityUnit
  | MetersPerSecond
  | KilometersPerHour
  | FeetPerSecond
  | MilesPerHour
  | Knots
deriving DecidableEq, Repr

/-- Abbreviation of a velocity unit (`VelocityUnit::abbr`). -/
def VelocityUnit.abbr : VelocityUnit → String
  | .MetersPerSecond => "m/s"
  | .KilometersPerHour => "km/h"
  | .FeetPerSecond => "ft/s"
  | .MilesPerHour => "mph"
  | .Knots => "kn"

/-- Full name of a velocity unit (`VelocityUnit::name`). -/
def VelocityUnit.name : VelocityUnit → String
  | .MetersPerSecond => "Meters per Second"
  | .KilometersPerHour => "Kilometers per Hour"
  | .FeetPerSecond => "Feet per Second"
  | .MilesPerHour => "Miles per Hour"
  | .Knots => "Knots"

/-- Combined form for velocity units. -/
def VelocityUnit.name_and_abbr (u : VelocityUnit) : String :=
  u.name ++ " (" ++ u.abbr ++ ")"

/-- Two-step conversion (`VelocityUnit::convert`) via meters per second. -/
def VelocityUnit.convert (self : VelocityUnit) (value : ℚ) (to_unit : VelocityUnit) : ℚ :=
  let velocity_meters_per_second :=
    match self with
    | .MetersPerSecond => value
    | .KilometersPerHour => value / 3.6
    | .FeetPerSecond => value / 3.28084
    | .MilesPerHour => value / 2.23694
    | .Knots => value / 1.94384
  match to_unit with
  | .MetersPerSecond => velocity_meters_per_second
  | .KilometersPerHour => velocity_meters_per_second * 3.6
  | .FeetPerSecond => velocity_meters_per_second * 3.28084
  | .MilesPerHour => velocity_meters_per_second * 2.23694
  | .Knots => velocity_meters_per_second * 1.94384

/-- String lookup (`VelocityUnit::from_str`). -/
def VelocityUnit.from_str (unit_str : String) : Option VelocityUnit :=
  if unit_str = VelocityUnit.MetersPerSecond.abbr ∨ unit_str = VelocityUnit.MetersPerSecond.name ∨ unit_str = VelocityUnit.MetersPerSecond.name_and_abbr then some .MetersPerSecond
  else if unit_str = VelocityUnit.KilometersPerHour.abbr ∨ unit_str = VelocityUnit.KilometersPerHour.name ∨ unit_str = VelocityUnit.KilometersPerHour.name_and_abbr then some .KilometersPerHour
  else if unit_str = VelocityUnit.FeetPerSecond.abbr ∨ unit_str = VelocityUnit.FeetPerSecond.name ∨ unit_str = VelocityUnit.FeetPerSecond.name_and_abbr then some .FeetPerSecond
  else if unit_str = VelocityUnit.MilesPerHour.abbr ∨ unit_str = VelocityUnit.MilesPerHour.name ∨ unit_str = VelocityUnit.MilesPerHour.name_and_abbr then some .MilesPerHour
  else if unit_str = VelocityUnit.Knots.abbr ∨ unit_str = VelocityUnit.Knots.name ∨ unit_str = VelocityUnit.Knots.name_and_abbr then some .Knots
  else none

/-- Default velocity unit (`VelocityUnit::default`). -/
def VelocityUnit.default : VelocityUnit := .MetersPerSecond

/-- Force units of `src/units.rs` (enum `ForceUnit`). -/
inductive ForceUnit
  | Newtons
  | PoundsForce
  | KilogramsForce
deriving DecidableEq, Repr

/-- Abbreviation of a force unit (`ForceUnit::abbr`). -/
def ForceUnit.abbr : ForceUnit → String
  | .Newtons => "N"
  | .PoundsForce => "lbf"
  | .KilogramsForce => "kgf"

/-- Full name of a force unit (`ForceUnit::name`). -/
def ForceUnit.name : ForceUnit → String
  | .Newtons => "Newtons"
  | .PoundsForce => "Pounds Force"
  | .KilogramsForce => "Kilograms Force"

/-- Combined form for force units. -/
def ForceUnit.name_and_abbr (u : ForceUnit) : String :=
  u.name ++ " (" ++ u.abbr ++ ")"

/-- Two-step conversion (`ForceUnit::convert`) via newtons. -/
def ForceUnit.convert (self : ForceUnit) (value : ℚ) (to_unit : ForceUnit) : ℚ :=
  let force_newtons :=
    match self with
    | .Newtons => value
    | .PoundsForce => value * 4.44822
    | .KilogramsForce => value * 9.80665
  match to_unit with
  | .Newtons => force_newtons
  | .PoundsForce => force_newtons / 4.44822
  | .KilogramsForce => force_newtons / 9.80665

/-- String lookup (`ForceUnit::from_str`). -/
def ForceUnit.from_str (unit_str : String) : Option ForceUnit :=
  if unit_str = ForceUnit.Newtons.abbr ∨ unit_str = ForceUnit.Newtons.name ∨ unit_str = ForceUnit.Newtons.name_and_abbr then some .Newtons
  else if unit_str = ForceUnit.PoundsForce.abbr ∨ unit_str = ForceUnit.PoundsForce.name ∨ unit_str = ForceUnit.PoundsForce.name_and_abbr then some .PoundsForce
  else if unit_str = ForceUnit.KilogramsForce.abbr ∨ unit_str = ForceUnit.KilogramsForce.name ∨ unit_str = ForceUnit.KilogramsForce.name_and_abbr then some .KilogramsForce
  else none

/-- Default force unit (`ForceUnit::default`). -/
def ForceUnit.default : ForceUnit := .Newtons

/-- Pressure units of `src/units.rs` (enum `PressureUnit`). -/
inductive PressureUnit
  | Pascals
  | Kilopascals
  | Megapascals
  | Bars
  | PoundsPerSquareInch
  | Atmospheres
  | Torrs
deriving DecidableEq, Repr

/-- Abbreviation of a pressure unit (`PressureUnit::abbr`). -/
def PressureUnit.abbr : PressureUnit → String
  | .Pascals => "Pa"
  | .Kilopascals => "kPa"
  | .Megapascals => "MPa"
  | .Bars => "bar"
  | .PoundsPerSquareInch => "psi"
  | .Atmospheres => "atm"
  | .Torrs => "Torr"

/-- Full name of a pressure unit (`PressureUnit::name`). -/
def PressureUnit.name : PressureUnit → String
  | .Pascals => "Pascals"
  | .Kilopascals => "Kilopascals"
  | .Megapascals => "Megapascals"
  | .Bars => "Bars"
  | .PoundsPerSquareInch => "Pounds per Square Inch"
  | .Atmospheres => "Atmospheres"
  | .Torrs => "Torrs"

/-- Combined form for pressure units. -/
def PressureUnit.name_and_abbr (u : PressureUnit) : String :=
  u.name ++ " (" ++ u.abbr ++ ")"

/-- Two-step conversion (`PressureUnit::convert`) via pascals. -/
def PressureUnit.convert (self : PressureUnit) (value : ℚ) (to_unit : PressureUnit) : ℚ :=
  let pressure_pascals :=
    match self with
    | .Pascals => value
    | .Kilopascals => value * 1000
    | .Megapascals => value * 1000000
    | .Bars => value * 100000
    | .PoundsPerSquareInch => value * 6894.76
    | .Atmospheres => value * 101325
    | .Torrs => value * 133.322
  match to_unit with
  | .Pascals => pressure_pascals
  | .Kilopascals => pressure_pascals / 1000
  | .Megapascals => pressure_pascals / 1000000
  | .Bars => pressure_pascals / 100000
  | .PoundsPerSquareInch => pressure_pascals / 6894.76
  | .Atmospheres => pressure_pascals / 101325
  | .Torrs => pressure_pascals / 133.322

/-- String lookup (`PressureUnit::from_str`). -/
def PressureUnit.from_str (unit_str : String) : Option PressureUnit :=
  if unit_str = PressureUnit.Pascals.abbr ∨ unit_str = PressureUnit.Pascals.name ∨ unit_str = PressureUnit.Pascals.name_and_abbr then some .Pascals
  else if unit_str = PressureUnit.Kilopascals.abbr ∨ unit_str = PressureUnit.Kilopascals.name ∨ unit_str = PressureUnit.Kilopascals.name_and_abbr then some .Kilopascals
  else if unit_str = PressureUnit.Megapascals.abbr ∨ unit_str = PressureUnit.Megapascals.name ∨ unit_str = PressureUnit.Megapascals.name_and_abbr then some .Megapascals
  else if unit_str = PressureUnit.Bars.abbr ∨ unit_str = PressureUnit.Bars.name ∨ unit_str = PressureUnit.Bars.name_and_abbr then some .Bars
  else if unit_str = PressureUnit.PoundsPerSquareInch.abbr ∨ unit_str = PressureUnit.PoundsPerSquareInch.name ∨ unit_str = PressureUnit.PoundsPerSquareInch.name_and_abbr then some .PoundsPerSquareInch
  else if unit_str = PressureUnit.Atmospheres.abbr ∨ unit_str = PressureUnit.Atmospheres.name ∨ unit_str = PressureUnit.Atmospheres.name_and_abbr then some .Atmospheres
  else if unit_str = PressureUnit.Torrs.abbr ∨ unit_str = PressureUnit.Torrs.name ∨ unit_str = PressureUnit.Torrs.name_and_abbr then some .Torrs
  else none

/-- Default pressure unit (`PressureUnit::default`). -/
def PressureUnit.default : PressureUnit := .Pascals

end UnitsRs

namespace UDraft

/-- Modelled from the spec: the `UnitEnum` draft's `LengthUnit`
(the unit module that `src/values.rs` is written against is absent from
`src/`).  Variant set from spec §3; conversion is the two-step
source→base→target algorithm of §4.2 with the Length factors of the §4.2
table (base Meters).  The Inches factor is taken as exactly 0.0254 m per
inch, the value the spec's §8 fixture `100 m → in ≈ 3937.0079` (the
source's own test literal `3937.007874015748`) pins down; the table's
`39.3701` is its rounded display. -/
inductive LengthUnit
  | Millimeters
  | Centimeters
  | Meters
  | Kilometers
  | Inches
  | Feet
  | Yards
  | StatuteMiles
  | NauticalMiles
deriving DecidableEq, Repr

/-- Modelled from the spec: three-argument conversion
`convert(value, from, to)` of the `UnitEnum` draft, §4.2 two-step
algorithm for Length. -/
def LengthUnit.convert (value : ℚ) (a b : LengthUnit) : ℚ :=
  let base :=
    match a with
    | .Millimeters => value / 1000
    | .Centimeters => value / 100
    | .Meters => value
    | .Kilometers => value * 1000
    | .Inches => value * 0.0254
    | .Feet => value / 3.28084
    | .Yards => value / 1.09361
    | .StatuteMiles => value / 0.000621371
    | .NauticalMiles => value / 0.000539957
  match b with
  | .Millimeters => base * 1000
  | .Centimeters => base * 100
  | .Meters => base
  | .Kilometers => base / 1000
  | .Inches => base / 0.0254
  | .Feet => base * 3.28084
  | .Yards => base * 1.09361
  | .StatuteMiles => base * 0.000621371
  | .NauticalMiles => base * 0.000539957

/-- Modelled from the spec: the Length base/default unit is Meters. -/
def LengthUnit.default : LengthUnit := .Meters

/-- Modelled from the spec: the `UnitEnum` draft's `MassUnit`, which
(unlike the `MassUnit` of `src/units.rs`) contains `Grams` — the variant
the `src/values.rs` test uses.  Base Kilograms; Grams/1000 per the §8
fixture `100 kg → g = 100000`; the pounds factor is 2.2046226218488
lb per kg, pinned by the §8 fixture `100 kg → lb ≈ 220.462262` (the
source's own test literal `220.46226218488`); the table's `2.20462` is
its rounded display. -/
inductive MassUnit
  | Kilograms
  | Grams
  | PoundsMass
deriving DecidableEq, Repr

/-- Modelled from the spec: three-argument conversion of the `UnitEnum`
draft, §4.2 two-step algorithm for Mass. -/
def MassUnit.convert (value : ℚ) (a b : MassUnit) : ℚ :=
  let base :=
    match a with
    | .Kilograms => value
    | .Grams => value / 1000
    | .PoundsMass => value / 2.2046226218488
  match b with
  | .Kilograms => base
  | .Grams => base * 1000
  | .PoundsMass => base * 2.2046226218488

/-- Modelled from the spec: the Mass base/default unit is Kilograms. -/
def MassUnit.default : MassUnit := .Kilograms

/-- Modelled from the spec: the `UnitEnum` draft's `TimeUnit`, base
Seconds, §4.2 table factors. -/
inductive TimeUnit
  | Seconds
  | Minutes
  | Hours
  | Days
  | Weeks
  | Years
deriving DecidableEq, Repr

/-- Modelled from the spec: three-argument conversion of the `UnitEnum`
draft, §4.2 two-step algorithm for Time. -/
def TimeUnit.convert (value : ℚ) (a b : TimeUnit) : ℚ :=
  let base :=
    match a with
    | .Seconds => value
    | .Minutes => value * 60
    | .Hours => value * 3600
    | .Days => value * 86400
    | .Weeks => value * 604800
    | .Years => value * 31536000
  match b with
  | .Seconds => base
  | .Minutes => base / 60
  | .Hours => base / 3600
  | .Days => base / 86400
  | .Weeks => base / 604800
  | .Years => base / 31536000

/-- Modelled from the spec: the Time base/default unit is Seconds. -/
def TimeUnit.default : TimeUnit := .Seconds

/-- Modelled from the spec: the `UnitEnum` draft's `TemperatureUnit`,
base Kelvin, affine §4.2 table formulas. -/
inductive TemperatureUnit
  | Kelvin
  | Celsius
  | Fahrenheit
  | Rankine
deriving DecidableEq, Repr

/-- Modelled from the spec: three-argument conversion of the `UnitEnum`
draft, §4.2 two-step affine algorithm for Temperature. -/
def TemperatureUnit.convert (value : ℚ) (a b : TemperatureUnit) : ℚ :=
  let base :=
    match a with
    | .Kelvin => value
    | .Celsius => value + 273.15
    | .Fahrenheit => (value + 459.67) * 5 / 9
    | .Rankine => value * 5 / 9
  match b with
  | .Kelvin => base
  | .Celsius => base - 273.15
  | .Fahrenheit => base * 9 / 5 - 459.67
  | .Rankine => base * 9 / 5

/-- Modelled from the spec: the Temperature base/default unit is Kelvin. -/
def TemperatureUnit.default : TemperatureUnit := .Kelvin

/-- Modelled from the spec: the `UnitEnum` draft's `VelocityUnit`
(the spec's Speed dimension), base meters per second, §4.2 table
factors. -/
inductive VelocityUnit
  | MetersPerSecond
  | KilometersPerHour
  | FeetPerSecond
  | MilesPerHour
  | Knots
deriving DecidableEq, Repr

/-- Modelled from the spec: three-argument conversion of the `UnitEnum`
draft, §4.2 two-step algorithm for Speed. -/
def VelocityUnit.convert (value : ℚ) (a b : VelocityUnit) : ℚ :=
  let base :=
    match a with
    | .MetersPerSecond => value
    | .KilometersPerHour => value / 3.6
    | .FeetPerSecond => value / 3.28084
    | .MilesPerHour => value / 2.23694
    | .Knots => value / 1.94384
  match b with
  | .MetersPerSecond => base
  | .KilometersPerHour => base * 3.6
  | .FeetPerSecond => base * 3.28084
  | .MilesPerHour => base * 2.23694
  | .Knots => base * 1.94384

/-- Modelled from the spec: the Speed base/default unit is meters per
second. -/
def VelocityUnit.default : VelocityUnit := .MetersPerSecond

/-- Modelled from the spec: the `UnitEnum` draft's `ForceUnit`, base
Newtons, §4.2 table factors. -/
inductive ForceUnit
  | Newtons
  | PoundsForce
  | KilogramsForce
deriving DecidableEq, Repr

/-- Modelled from the spec: three-argument conversion of the `UnitEnum`
draft, §4.2 two-step algorithm for Force. -/
def ForceUnit.convert (value : ℚ) (a b : ForceUnit) : ℚ :=
  let base :=
    match a with
    | .Newtons => value
    | .PoundsForce => value * 4.44822
    | .KilogramsForce => value * 9.80665
  match b with
  | .Newtons => base
  | .PoundsForce => base / 4.44822
  | .KilogramsForce => base / 9.80665

/-- Modelled from the spec: the Force base/default unit is Newtons. -/
def ForceUnit.default : ForceUnit := .Newtons

/-- Modelled from the spec: the `UnitEnum` draft's `PressureUnit`, base
Pascals, §4.2 table factors. -/
inductive PressureUnit
  | Pascals
  | Kilopascals
  | Megapascals
  | Bars
  | PoundsPerSquareInch
  | Atmospheres
  | Torrs
deriving DecidableEq, Repr

/-- Modelled from the spec: three-argument conversion of the `UnitEnum`
draft, §4.2 two-step algorithm for Pressure. -/
def PressureUnit.convert (value : ℚ) (a b : PressureUnit) : ℚ :=
  let base :=
    match a with
    | .Pascals => value
    | .Kilopascals => value * 1000
    | .Megapascals => value * 1000000
    | .Bars => value * 100000
    | .PoundsPerSquareInch => value * 6894.76
    | .Atmospheres => value * 101325
    | .Torrs => value * 133.322
  match b with
  | .Pascals => base
  | .Kilopascals => base / 1000
  | .Megapascals => base / 1000000
  | .Bars => base / 100000
  | .PoundsPerSquareInch => base / 6894.76
  | .Atmospheres => base / 101325
  | .Torrs => base / 133.322

/-- Modelled from the spec: the Pressure base/default unit is Pascals. -/
def PressureUnit.default : PressureUnit := .Pascals

/-- Modelled from the spec: the `UnitEnum` draft's `BearingUnit` (absent
from `src/`; `src/values.rs` references it).  Base Degrees with the §4.2
table factors `rad×57.2958, grad×0.9, mil×0.05625`. -/
inductive BearingUnit
  | Degrees
  | Radians
  | Gradians
  | Mils
deriving DecidableEq, Repr

/-- Modelled from the spec: three-argument conversion of the `UnitEnum`
draft, §4.2 two-step algorithm for Bearing. -/
def BearingUnit.convert (value : ℚ) (a b : BearingUnit) : ℚ :=
  let base :=
    match a with
    | .Degrees => value
    | .Radians => value * 57.2958
    | .Gradians => value * 0.9
    | .Mils => value * 0.05625
  match b with
  | .Degrees => base
  | .Radians => base / 57.2958
  | .Gradians => base / 0.9
  | .Mils => base / 0.05625

/-- Modelled from the spec: the Bearing base/default unit is Degrees
(the §4.2 table names Degrees as the Bearing base unit). -/
def BearingUnit.default : BearingUnit := .Degrees

/-- Modelled from the spec: the `UnitEnum` draft's `AccelerationUnit`
(absent from `src/`; `src/values.rs` references its
`MetersPerSecondSquared` variant).  The spec lists the Acceleration
dimension with base meters per second squared and gives no further
variants or factors. -/
inductive AccelerationUnit
  | MetersPerSecondSquared
deriving DecidableEq, Repr

/-- Modelled from the spec: three-argument conversion for Acceleration;
with the single base variant it is the identity on the value. -/
def AccelerationUnit.convert (value : ℚ) (a b : AccelerationUnit) : ℚ :=
  let base :=
    match a with
    | .MetersPerSecondSquared => value
  match b with
  | .MetersPerSecondSquared => base

/-- Modelled from the spec: the Acceleration base/default unit. -/
def AccelerationUnit.default : AccelerationUnit := .MetersPerSecondSquared

/-- Modelled from the spec: the `UnitEnum` sum type of the draft that
`src/values.rs` is written against — one constructor per dimension, each
wrapping that dimension's unit enum. -/
inductive UnitEnum
  | Length (u : LengthUnit)
  | Mass (u : MassUnit)
  | Time (u : TimeUnit)
  | Temperature (u : TemperatureUnit)
  | Velocity (u : VelocityUnit)
  | Force (u : ForceUnit)
  | Pressure (u : PressureUnit)
  | Bearing (u : BearingUnit)
  | Acceleration (u : AccelerationUnit)
deriving DecidableEq, Repr

end UDraft

namespace ValuesRs

open UDraft

/-- Wrapper `LengthValue` of `src/values.rs`: a single rational magnitude,
stored in Meters. -/
structure LengthValue where
  value : ℚ
deriving DecidableEq, Repr

/-- Constructor `LengthValue::new`: converts the given value from the
given unit to `LengthUnit::default()` (Meters) and stores it; the
`"Invalid unit for LengthValue"` branch for a non-Length `UnitEnum` is
modelled as `none`. -/
def LengthValue.new (value : ℚ) (unit : UnitEnum) : Option LengthValue :=
  match unit with
  | .Length lu => some ⟨LengthUnit.convert value lu LengthUnit.default⟩
  | _ => none

/-- Accessor `LengthValue::get`: converts the stored Meters magnitude to
the requested unit; non-Length units hit the invalid-unit branch
(`none`). -/
def LengthValue.get (self : LengthValue) (unit : UnitEnum) : Option LengthValue :=
  match unit with
  | .Length lu => some ⟨LengthUnit.convert self.value LengthUnit.default lu⟩
  | _ => none

/-- Mutator `LengthValue::set`: converts the given value to Meters and
stores it (modelled as returning the updated wrapper); non-Length units
hit the invalid-unit branch (`none`). -/
def LengthValue.set (_self : LengthValue) (value : ℚ) (unit : UnitEnum) : Option LengthValue :=
  match unit with
  | .Length lu => some ⟨LengthUnit.convert value lu LengthUnit.default⟩
  | _ => none

/-- Wrapper `MassValue` of `src/values.rs`, stored in Kilograms. -/
structure MassValue where
  value : ℚ
deriving DecidableEq, Repr

/-- Constructor `MassValue::new`. -/
def MassValue.new (value : ℚ) (unit : UnitEnum) : Option MassValue :=
  match unit with
  | .Mass mu => some ⟨MassUnit.convert value mu MassUnit.default⟩
  | _ => none

/-- Accessor `MassValue::get`. -/
def MassValue.get (self : MassValue) (unit : UnitEnum) : Option MassValue :=
  match unit with
  | .Mass mu => some ⟨MassUnit.convert self.value MassUnit.default mu⟩
  | _ => none

/-- Mutator `MassValue::set`. -/
def MassValue.set (_self : MassValue) (value : ℚ) (unit : UnitEnum) : Option MassValue :=
  match unit with
  | .Mass mu => some ⟨MassUnit.convert value mu MassUnit.default⟩
  | _ => none

/-- Wrapper `TimeValue` of `src/values.rs`, stored in Seconds. -/
structure TimeValue where
  value : ℚ
deriving DecidableEq, Repr

/-- Constructor `TimeValue::new`. -/
def TimeValue.new (value : ℚ) (unit : UnitEnum) : Option TimeValue :=
  match unit with
  | .Time tu => some ⟨TimeUnit.convert value tu TimeUnit.default⟩
  | _ => none

/-- Accessor `TimeValue::get`. -/
def TimeValue.get (self : TimeValue) (unit : UnitEnum) : Option TimeValue :=
  match unit with
  | .Time tu => some ⟨TimeUnit.convert self.value TimeUnit.default tu⟩
  | _ => none

/-- Mutator `TimeValue::set`. -/
def TimeValue.set (_self : TimeValue) (value : ℚ) (unit : UnitEnum) : Option TimeValue :=
  match unit with
  | .Time tu => some ⟨TimeUnit.convert value tu TimeUnit.default⟩
  | _ => none

/-- Wrapper `TemperatureValue` of `src/values.rs`, stored in Kelvin. -/
structure TemperatureValue where
  value : ℚ
deriving DecidableEq, Repr

/-- Constructor `TemperatureValue::new`. -/
def TemperatureValue.new (value : ℚ) (unit : UnitEnum) : Option TemperatureValue :=
  match unit with
  | .Temperature tu => some ⟨TemperatureUnit.convert value tu TemperatureUnit.default⟩
  | _ => none

/-- Accessor `TemperatureValue::get`. -/
def TemperatureValue.get (self : TemperatureValue) (unit : UnitEnum) : Option TemperatureValue :=
  match unit with
  | .Temperature tu => some ⟨TemperatureUnit.convert self.value TemperatureUnit.default tu⟩
  | _ => none

/-- Mutator `TemperatureValue::set`. -/
def TemperatureValue.set (_self : TemperatureValue) (value : ℚ) (unit : UnitEnum) : Option TemperatureValue :=
  match unit with
  | .Temperature tu => some ⟨TemperatureUnit.convert value tu TemperatureUnit.default⟩
  | _ => none

/-- Wrapper `VelocityValue` of `src/values.rs`, stored in meters per
second. -/
structure VelocityValue where
  value : ℚ
deriving DecidableEq, Repr

/-- Constructor `VelocityValue::new`. -/
def VelocityValue.new (value : ℚ) (unit : UnitEnum) : Option VelocityValue :=
  match unit with
  | .Velocity vu => some ⟨VelocityUnit.convert value vu VelocityUnit.default⟩
  | _ => none

/-- Accessor `VelocityValue::get`. -/
def VelocityValue.get (self : VelocityValue) (unit : UnitEnum) : Option VelocityValue :=
  match unit with
  | .Velocity vu => some ⟨VelocityUnit.convert self.value VelocityUnit.default vu⟩
  | _ => none

/-- Mutator `VelocityValue::set`. -/
def VelocityValue.set (_self : VelocityValue) (value : ℚ) (unit : UnitEnum) : Option VelocityValue :=
  match unit with
  | .Velocity vu => some ⟨VelocityUnit.convert value vu VelocityUnit.default⟩
  | _ => none

/-- Wrapper `ForceValue` of `src/values.rs`, stored in Newtons. -/
structure ForceValue where
  value : ℚ
deriving DecidableEq, Repr

/-- Constructor `ForceValue::new`. -/
def ForceValue.new (value : ℚ) (unit : UnitEnum) : Option ForceValue :=
  match unit with
  | .Force fu => some ⟨ForceUnit.convert value fu ForceUnit.default⟩
  | _ => none

/-- Accessor `ForceValue::get`. -/
def ForceValue.get (self : ForceValue) (unit : UnitEnum) : Option ForceValue :=
  match unit with
  | .Force fu => some ⟨ForceUnit.convert self.value ForceUnit.default fu⟩
  | _ => none

/-- Mutator `ForceValue::set`. -/
def ForceValue.set (_self : ForceValue) (value : ℚ) (unit : UnitEnum) : Option ForceValue :=
  match unit with
  | .Force fu => some ⟨ForceUnit.convert value fu ForceUnit.default⟩
  | _ => none

/-- Wrapper `PressureValue` of `src/values.rs`, stored in Pascals. -/
structure PressureValue where
  value : ℚ
deriving DecidableEq, Repr

/-- Constructor `PressureValue::new`. -/
def PressureValue.new (value : ℚ) (unit : UnitEnum) : Option PressureValue :=
  match unit with
  | .Pressure pu => some ⟨PressureUnit.convert value pu PressureUnit.default⟩
  | _ => none

/-- Accessor `PressureValue::get`. -/
def PressureValue.get (self : PressureValue) (unit : UnitEnum) : Option PressureValue :=
  match unit with
  | .Pressure pu => some ⟨PressureUnit.convert self.value PressureUnit.default pu⟩
  | _ => none

/-- Mutator `PressureValue::set`. -/
def PressureValue.set (_self : PressureValue) (value : ℚ) (unit : UnitEnum) : Option PressureValue :=
  match unit with
  | .Pressure pu => some ⟨PressureUnit.convert value pu PressureUnit.default⟩
  | _ => none

/-- Wrapper `BearingValue` of `src/values.rs`, stored in the Bearing
default unit. -/
structure BearingValue where
  value : ℚ
deriving DecidableEq, Repr

/-- Constructor `BearingValue::new`. -/
def BearingValue.new (value : ℚ) (unit : UnitEnum) : Option BearingValue :=
  match unit with
  | .Bearing bu => some ⟨BearingUnit.convert value bu BearingUnit.default⟩
  | _ => none

/-- Accessor `BearingValue::get`. -/
def BearingValue.get (self : BearingValue) (unit : UnitEnum) : Option BearingValue :=
  match unit with
  | .Bearing bu => some ⟨BearingUnit.convert self.value BearingUnit.default bu⟩
  | _ => none

/-- Mutator `BearingValue::set`. -/
def BearingValue.set (_self : BearingValue) (value : ℚ) (unit : UnitEnum) : Option BearingValue :=
  match unit with
  | .Bearing bu => some ⟨BearingUnit.convert value bu BearingUnit.default⟩
  | _ => none

/-- Wrapper `AccelerationValue` of `src/values.rs`, stored in meters per
second squared. -/
structure AccelerationValue where
  value : ℚ
deriving DecidableEq, Repr

/-- Constructor `AccelerationValue::new`. -/
def AccelerationValue.new (value : ℚ) (unit : UnitEnum) : Option AccelerationValue :=
  match unit with
  | .Acceleration au => some ⟨AccelerationUnit.convert value au AccelerationUnit.default⟩
  | _ => none

/-- Accessor `AccelerationValue::get`. -/
def AccelerationValue.get (self : AccelerationValue) (unit : UnitEnum) : Option AccelerationValue :=
  match unit with
  | .Acceleration au => some ⟨AccelerationUnit.convert self.value AccelerationUnit.default au⟩
  | _ => none

/-- Mutator `AccelerationValue::set`. -/
def AccelerationValue.set (_self : AccelerationValue) (value : ℚ) (unit : UnitEnum) : Option AccelerationValue :=
  match unit with
  | .Acceleration au => some ⟨AccelerationUnit.convert value au AccelerationUnit.default⟩
  | _ => none

end ValuesRs

/-! Binary64 model.  The Rust code computes in IEEE-754 binary64 (`f64`)
with round-to-nearest, ties-to-even.  The following model captures that
arithmetic exactly for finite, non-overflowing magnitudes (every number
in this development is far below the binary64 overflow threshold
`2^1024`, so overflow is not modelled): a real result is rounded to the
nearest representable multiple of the unit in the last place, which is
`2^(e-52)` for a magnitude in the binade `[2^e, 2^(e+1))` with
`e ≥ -1022`, and `2^(-1074)` in the subnormal range. -/

/-- Round a rational to the nearest integer, ties to even. -/
def rne (x : ℚ) : ℤ :=
  if x - ⌊x⌋ < 1 / 2 then ⌊x⌋
  else if 1 / 2 < x - ⌊x⌋ then ⌊x⌋ + 1
  else if ⌊x⌋ % 2 = 0 then ⌊x⌋ else ⌊x⌋ + 1

/-- IEEE-754 binary64 rounding (round-to-nearest, ties-to-even) of an
exact rational value, for the finite non-overflowing range. -/
def round64 (q : ℚ) : ℚ :=
  if q = 0 then 0
  else
    (if q < 0 then -1 else 1) *
      (rne (|q| / 2 ^ (max (Int.log 2 |q|) (-1022) - 52)) : ℚ) *
      2 ^ (max (Int.log 2 |q|) (-1022) - 52)

/-- Binary64 addition: the correctly rounded exact sum. -/
def f64_add (a b : ℚ) : ℚ := round64 (a + b)

/-- Binary64 subtraction: the correctly rounded exact difference. -/
def f64_sub (a b : ℚ) : ℚ := round64 (a - b)

/-- Binary64 multiplication: the correctly rounded exact product. -/
def f64_mul (a b : ℚ) : ℚ := round64 (a * b)

/-- Binary64 division: the correctly rounded exact quotient. -/
def f64_div (a b : ℚ) : ℚ := round64 (a / b)

/-- Binary64 semantics of `TemperatureUnit::convert` from
`src/units.rs`: the same two affine steps as
`UnitsRs.TemperatureUnit.convert`, with every operation correctly
rounded and each decimal literal denoting its nearest binary64 value
(`round64`; the literals 5 and 9 are exactly representable). -/
def UnitsRs.TemperatureUnit.convert64 (self : UnitsRs.TemperatureUnit) (value : ℚ)
    (to_unit : UnitsRs.TemperatureUnit) : ℚ :=
  let temp_kelvin :=
    match self with
    | .Kelvin => value
    | .Celsius => f64_add value (round64 273.15)
    | .Fahrenheit => f64_div (f64_mul (f64_add value (round64 459.67)) 5) 9
    | .Rankine => f64_div (f64_mul value 5) 9
  match to_unit with
  | .Kelvin => temp_kelvin
  | .Celsius => f64_sub temp_kelvin (round64 273.15)
  | .Fahrenheit => f64_sub (f64_div (f64_mul temp_kelvin 9) 5) (round64 459.67)
  | .Rankine => f64_div (f64_mul temp_kelvin 9) 5

/-! Theorems.  Shared helper lemmas come first; the claim theorems follow. -/

/-- Helper: length conversions round-trip exactly in exact arithmetic. -/
theorem length_round_trip_exact (A B : UnitsRs.LengthUnit) (v : ℚ) :
    UnitsRs.LengthUnit.convert B (UnitsRs.LengthUnit.convert A v B) A = v := by
  cases A <;> cases B <;> simp only [UnitsRs.LengthUnit.convert] <;> ring

/-- Helper: mass conversions round-trip exactly in exact arithmetic. -/
theorem mass_round_trip_exact (A B : UnitsRs.MassUnit) (v : ℚ) :
    UnitsRs.MassUnit.convert B (UnitsRs.MassUnit.convert A v B) A = v := by
  cases A <;> cases B <;> simp only [UnitsRs.MassUnit.convert] <;> ring

/-- Helper: time conversions round-trip exactly in exact arithmetic. -/
theorem time_round_trip_exact (A B : UnitsRs.TimeUnit) (v : ℚ) :
    UnitsRs.TimeUnit.convert B (UnitsRs.TimeUnit.convert A v B) A = v := by
  cases A <;> cases B <;> simp only [UnitsRs.TimeUnit.convert] <;> ring

/-- Helper: temperature conversions (affine) round-trip exactly in exact
arithmetic. -/
theorem temperature_round_trip_exact (A B : UnitsRs.TemperatureUnit) (v : ℚ) :
    UnitsRs.TemperatureUnit.convert B (UnitsRs.TemperatureUnit.convert A v B) A = v := by
  cases A <;> cases B <;> simp only [UnitsRs.TemperatureUnit.convert] <;> ring

/-- Helper: velocity conversions round-trip exactly in exact arithmetic. -/
theorem velocity_round_trip_exact (A B : UnitsRs.VelocityUnit) (v : ℚ) :
    UnitsRs.VelocityUnit.convert B (UnitsRs.VelocityUnit.convert A v B) A = v := by
  cases A <;> cases B <;> simp only [UnitsRs.VelocityUnit.convert] <;> ring

/-- Helper: force conversions round-trip exactly in exact arithmetic. -/
theorem force_round_trip_exact (A B : UnitsRs.ForceUnit) (v : ℚ) :
    UnitsRs.ForceUnit.convert B (UnitsRs.ForceUnit.convert A v B) A = v := by
  cases A <;> cases B <;> simp only [UnitsRs.ForceUnit.convert] <;> ring

/-- Helper: pressure conversions round-trip exactly in exact arithmetic. -/
theorem pressure_round_trip_exact (A B : UnitsRs.PressureUnit) (v : ℚ) :
    UnitsRs.PressureUnit.convert B (UnitsRs.PressureUnit.convert A v B) A = v := by
  cases A <;> cases B <;> simp only [UnitsRs.PressureUnit.convert] <;> ring

/-- C1 (amended): for every implemented dimension (Length, Mass, Time,
Temperature, Velocity, Force, Pressure), every pair of unit variants A
and B, and every value v, `convert(convert(v, A, B), B, A)` equals v
exactly in exact real arithmetic — hence within the 1e-9 relative
tolerance there.  The original claim over every finite f64 value is
false of the code: under binary64 rounding the affine Temperature
conversions absorb values far below the offset's ulp, see
the C1 counterexample. -/
theorem C1_convert_round_trip :
    (∀ (A B : UnitsRs.LengthUnit) (v : ℚ),
        UnitsRs.LengthUnit.convert B (UnitsRs.LengthUnit.convert A v B) A = v ∧
        |UnitsRs.LengthUnit.convert B (UnitsRs.LengthUnit.convert A v B) A - v| ≤ 1e-9 * |v|) ∧
    (∀ (A B : UnitsRs.MassUnit) (v : ℚ),
        UnitsRs.MassUnit.convert B (UnitsRs.MassUnit.convert A v B) A = v ∧
        |UnitsRs.MassUnit.convert B (UnitsRs.MassUnit.convert A v B) A - v| ≤ 1e-9 * |v|) ∧
    (∀ (A B : UnitsRs.TimeUnit) (v : ℚ),
        UnitsRs.TimeUnit.convert B (UnitsRs.TimeUnit.convert A v B) A = v ∧
        |UnitsRs.TimeUnit.convert B (UnitsRs.TimeUnit.convert A v B) A - v| ≤ 1e-9 * |v|) ∧
    (∀ (A B : UnitsRs.TemperatureUnit) (v : ℚ),
        UnitsRs.TemperatureUnit.convert B (UnitsRs.TemperatureUnit.convert A v B) A = v ∧
        |UnitsRs.TemperatureUnit.convert B (UnitsRs.TemperatureUnit.convert A v B) A - v| ≤ 1e-9 * |v|) ∧
    (∀ (A B : UnitsRs.VelocityUnit) (v : ℚ),
        UnitsRs.VelocityUnit.convert B (UnitsRs.VelocityUnit.convert A v B) A = v ∧
        |UnitsRs.VelocityUnit.convert B (UnitsRs.VelocityUnit.convert A v B) A - v| ≤ 1e-9 * |v|) ∧
    (∀ (A B : UnitsRs.ForceUnit) (v : ℚ),
        UnitsRs.ForceUnit.convert B (UnitsRs.ForceUnit.convert A v B) A = v ∧
        |UnitsRs.ForceUnit.convert B (UnitsRs.ForceUnit.convert A v B) A - v| ≤ 1e-9 * |v|) ∧
    (∀ (A B : UnitsRs.PressureUnit) (v : ℚ),
        UnitsRs.PressureUnit.convert B (UnitsRs.PressureUnit.convert A v B) A = v ∧
        |UnitsRs.PressureUnit.convert B (UnitsRs.PressureUnit.convert A v B) A - v| ≤ 1e-9 * |v|) := by
  refine ⟨fun A B v => ⟨length_round_trip_exact A B v, ?_⟩,
          fun A B v => ⟨mass_round_trip_exact A B v, ?_⟩,
          fun A B v => ⟨time_round_trip_exact A B v, ?_⟩,
          fun A B v => ⟨temperature_round_trip_exact A B v, ?_⟩,
          fun A B v => ⟨velocity_round_trip_exact A B v, ?_⟩,
          fun A B v => ⟨force_round_trip_exact A B v, ?_⟩,
          fun A B v => ⟨pressure_round_trip_exact A B v, ?_⟩⟩
  · rw [length_round_trip_exact, sub_self, abs_zero]; positivity
  · rw [mass_round_trip_exact, sub_self, abs_zero]; positivity
  · rw [time_round_trip_exact, sub_self, abs_zero]; positivity
  · rw [temperature_round_trip_exact, sub_self, abs_zero]; positivity
  · rw [velocity_round_trip_exact, sub_self, abs_zero]; positivity
  · rw [force_round_trip_exact, sub_self, abs_zero]; positivity
  · rw [pressure_round_trip_exact, sub_self, abs_zero]; positivity

/-- C2: step 1 of convert maps the input value to the dimension's base
unit using exactly the factors listed in the spec's table.  Stated as
conversion into the base unit (step 2 at the base unit is the identity);
the Bearing row is settled against the spec-modelled `UDraft.BearingUnit`
since no `BearingUnit` exists under `src/`. -/
theorem C2_to_base_factors :
    ∀ v : ℚ,
      (UnitsRs.LengthUnit.convert .Millimeters v .Meters = v / 1000) ∧
      (UnitsRs.LengthUnit.convert .Centimeters v .Meters = v / 100) ∧
      (UnitsRs.LengthUnit.convert .Kilometers v .Meters = v * 1000) ∧
      (UnitsRs.LengthUnit.convert .Inches v .Meters = v / 39.3701) ∧
      (UnitsRs.LengthUnit.convert .Feet v .Meters = v / 3.28084) ∧
      (UnitsRs.LengthUnit.convert .Yards v .Meters = v / 1.09361) ∧
      (UnitsRs.LengthUnit.convert .StatuteMiles v .Meters = v / 0.000621371) ∧
      (UnitsRs.LengthUnit.convert .NauticalMiles v .Meters = v / 0.000539957) ∧
      (UnitsRs.TemperatureUnit.convert .Celsius v .Kelvin = v + 273.15) ∧
      (UnitsRs.TemperatureUnit.convert .Fahrenheit v .Kelvin = (v + 459.67) * 5 / 9) ∧
      (UnitsRs.TemperatureUnit.convert .Rankine v .Kelvin = v * 5 / 9) ∧
      (UnitsRs.MassUnit.convert .PoundsMass v .Kilograms = v / 2.20462) ∧
      (UnitsRs.TimeUnit.convert .Minutes v .Seconds = v * 60) ∧
      (UnitsRs.TimeUnit.convert .Hours v .Seconds = v * 3600) ∧
      (UnitsRs.TimeUnit.convert .Days v .Seconds = v * 86400) ∧
      (UnitsRs.TimeUnit.convert .Weeks v .Seconds = v * 604800) ∧
      (UnitsRs.TimeUnit.convert .Years v .Seconds = v * 31536000) ∧
      (UnitsRs.VelocityUnit.convert .KilometersPerHour v .MetersPerSecond = v / 3.6) ∧
      (UnitsRs.VelocityUnit.convert .FeetPerSecond v .MetersPerSecond = v / 3.28084) ∧
      (UnitsRs.VelocityUnit.convert .MilesPerHour v .MetersPerSecond = v / 2.23694) ∧
      (UnitsRs.VelocityUnit.convert .Knots v .MetersPerSecond = v / 1.94384) ∧
      (UnitsRs.ForceUnit.convert .PoundsForce v .Newtons = v * 4.44822) ∧
      (UnitsRs.ForceUnit.convert .KilogramsForce v .Newtons = v * 9.80665) ∧
      (UnitsRs.PressureUnit.convert .Kilopascals v .Pascals = v * 1000) ∧
      (UnitsRs.PressureUnit.convert .Megapascals v .Pascals = v * 1000000) ∧
      (UnitsRs.PressureUnit.convert .Bars v .Pascals = v * 100000) ∧
      (UnitsRs.PressureUnit.convert .PoundsPerSquareInch v .Pascals = v * 6894.76) ∧
      (UnitsRs.PressureUnit.convert .Atmospheres v .Pascals = v * 101325) ∧
      (UnitsRs.PressureUnit.convert .Torrs v .Pascals = v * 133.322) ∧
      (UDraft.BearingUnit.convert v .Radians .Degrees = v * 57.2958) ∧
      (UDraft.BearingUnit.convert v .Gradians .Degrees = v * 0.9) ∧
      (UDraft.BearingUnit.convert v .Mils .Degrees = v * 0.05625) := by
  intro v
  exact ⟨rfl, rfl, rfl, rfl, rfl, rfl, rfl, rfl, rfl, rfl, rfl, rfl, rfl, rfl, rfl, rfl,
         rfl, rfl, rfl, rfl, rfl, rfl, rfl, rfl, rfl, rfl, rfl, rfl, rfl, rfl, rfl, rfl⟩

/-- C4: the parser is total on the registry's own output — for every
variant U of every implemented dimension, `from_str` maps `abbr(U)`,
`name(U)` and `name_and_abbr(U)` back to `Some(U)`. -/
theorem C4_parser_total_on_own_output :
    (∀ u : UnitsRs.LengthUnit,
        UnitsRs.LengthUnit.from_str u.abbr = some u ∧
        UnitsRs.LengthUnit.from_str u.name = some u ∧
        UnitsRs.LengthUnit.from_str u.name_and_abbr = some u) ∧
    (∀ u : UnitsRs.MassUnit,
        UnitsRs.MassUnit.from_str u.abbr = some u ∧
        UnitsRs.MassUnit.from_str u.name = some u ∧
        UnitsRs.MassUnit.from_str u.name_and_abbr = some u) ∧
    (∀ u : UnitsRs.TimeUnit,
        UnitsRs.TimeUnit.from_str u.abbr = some u ∧
        UnitsRs.TimeUnit.from_str u.name = some u ∧
        UnitsRs.TimeUnit.from_str u.name_and_abbr = some u) ∧
    (∀ u : UnitsRs.TemperatureUnit,
        UnitsRs.TemperatureUnit.from_str u.abbr = some u ∧
        UnitsRs.TemperatureUnit.from_str u.name = some u ∧
        UnitsRs.TemperatureUnit.from_str u.name_and_abbr = some u) ∧
    (∀ u : UnitsRs.VelocityUnit,
        UnitsRs.VelocityUnit.from_str u.abbr = some u ∧
        UnitsRs.VelocityUnit.from_str u.name = some u ∧
        UnitsRs.VelocityUnit.from_str u.name_and_abbr = some u) ∧
    (∀ u : UnitsRs.ForceUnit,
        UnitsRs.ForceUnit.from_str u.abbr = some u ∧
        UnitsRs.ForceUnit.from_str u.name = some u ∧
        UnitsRs.ForceUnit.from_str u.name_and_abbr = some u) ∧
    (∀ u : UnitsRs.PressureUnit,
        UnitsRs.PressureUnit.from_str u.abbr = some u ∧
        UnitsRs.PressureUnit.from_str u.name = some u ∧
        UnitsRs.PressureUnit.from_str u.name_and_abbr = some u) := by
  refine ⟨?_, ?_, ?_, ?_, ?_, ?_, ?_⟩ <;> intro u <;> cases u <;> decide

/-- Helper: a string matching no length form parses to `none`. -/
theorem length_from_str_unmatched (s : String)
    (h : ∀ u : UnitsRs.LengthUnit, s ≠ u.abbr ∧ s ≠ u.name ∧ s ≠ u.name_and_abbr) :
    UnitsRs.LengthUnit.from_str s = none := by
  have h1 := h .Millimeters
  have h2 := h .Centimeters
  have h3 := h .Meters
  have h4 := h .Kilometers
  have h5 := h .Inches
  have h6 := h .Feet
  have h7 := h .Yards
  have h8 := h .StatuteMiles
  have h9 := h .NauticalMiles
  simp only [UnitsRs.LengthUnit.from_str]
  simp [h1.1, h1.2.1, h1.2.2, h2.1, h2.2.1, h2.2.2, h3.1, h3.2.1, h3.2.2,
        h4.1, h4.2.1, h4.2.2, h5.1, h5.2.1, h5.2.2, h6.1, h6.2.1, h6.2.2,
        h7.1, h7.2.1, h7.2.2, h8.1, h8.2.1, h8.2.2, h9.1, h9.2.1, h9.2.2]

/-- Helper: a string matching no mass form parses to `none`. -/
theorem mass_from_str_unmatched (s : String)
    (h : ∀ u : UnitsRs.MassUnit, s ≠ u.abbr ∧ s ≠ u.name ∧ s ≠ u.name_and_abbr) :
    UnitsRs.MassUnit.from_str s = none := by
  have h1 := h .Kilograms
  have h2 := h .PoundsMass
  simp only [UnitsRs.MassUnit.from_str]
  simp [h1.1, h1.2.1, h1.2.2, h2.1, h2.2.1, h2.2.2]

/-- Helper: a string matching no time form parses to `none`. -/
theorem time_from_str_unmatched (s : String)
    (h : ∀ u : UnitsRs.TimeUnit, s ≠ u.abbr ∧ s ≠ u.name ∧ s ≠ u.name_and_abbr) :
    UnitsRs.TimeUnit.from_str s = none := by
  have h1 := h .Seconds
  have h2 := h .Minutes
  have h3 := h .Hours
  have h4 := h .Days
  have h5 := h .Weeks
  have h6 := h .Years
  simp only [UnitsRs.TimeUnit.from_str]
  simp [h1.1, h1.2.1, h1.2.2, h2.1, h2.2.1, h2.2.2, h3.1, h3.2.1, h3.2.2,
        h4.1, h4.2.1, h4.2.2, h5.1, h5.2.1, h5.2.2, h6.1, h6.2.1, h6.2.2]

/-- Helper: a string matching no temperature form parses to `none`. -/
theorem temperature_from_str_unmatched (s : String)
    (h : ∀ u : UnitsRs.TemperatureUnit, s ≠ u.abbr ∧ s ≠ u.name ∧ s ≠ u.name_and_abbr) :
    UnitsRs.TemperatureUnit.from_str s = none := by
  have h1 := h .Kelvin
  have h2 := h .Celsius
  have h3 := h .Fahrenheit
  have h4 := h .Rankine
  simp only [UnitsRs.TemperatureUnit.from_str]
  simp [h1.1, h1.2.1, h1.2.2, h2.1, h2.2.1, h2.2.2, h3.1, h3.2.1, h3.2.2,
        h4.1, h4.2.1, h4.2.2]

/-- Helper: a string matching no velocity form parses to `none`. -/
theorem velocity_from_str_unmatched (s : String)
    (h : ∀ u : UnitsRs.VelocityUnit, s ≠ u.abbr ∧ s ≠ u.name ∧ s ≠ u.name_and_abbr) :
    UnitsRs.VelocityUnit.from_str s = none := by
  have h1 := h .MetersPerSecond
  have h2 := h .KilometersPerHour
  have h3 := h .FeetPerSecond
  have h4 := h .MilesPerHour
  have h5 := h .Knots
  simp only [UnitsRs.VelocityUnit.from_str]
  simp [h1.1, h1.2.1, h1.2.2, h2.1, h2.2.1, h2.2.2, h3.1, h3.2.1, h3.2.2,
        h4.1, h4.2.1, h4.2.2, h5.1, h5.2.1, h5.2.2]

/-- Helper: a string matching no force form parses to `none`. -/
theorem force_from_str_unmatched (s : String)
    (h : ∀ u : UnitsRs.ForceUnit, s ≠ u.abbr ∧ s ≠ u.name ∧ s ≠ u.name_and_abbr) :
    UnitsRs.ForceUnit.from_str s = none := by
  have h1 := h .Newtons
  have h2 := h .PoundsForce
  have h3 := h .KilogramsForce
  simp only [UnitsRs.ForceUnit.from_str]
  simp [h1.1, h1.2.1, h1.2.2, h2.1, h2.2.1, h2.2.2, h3.1, h3.2.1, h3.2.2]

/-- Helper: a string matching no pressure form parses to `none`. -/
theorem pressure_from_str_unmatched (s : String)
    (h : ∀ u : UnitsRs.PressureUnit, s ≠ u.abbr ∧ s ≠ u.name ∧ s ≠ u.name_and_abbr) :
    UnitsRs.PressureUnit.from_str s = none := by
  have h1 := h .Pascals
  have h2 := h .Kilopascals
  have h3 := h .Megapascals
  have h4 := h .Bars
  have h5 := h .PoundsPerSquareInch
  have h6 := h .Atmospheres
  have h7 := h .Torrs
  simp only [UnitsRs.PressureUnit.from_str]
  simp [h1.1, h1.2.1, h1.2.2, h2.1, h2.2.1, h2.2.2, h3.1, h3.2.1, h3.2.2,
        h4.1, h4.2.1, h4.2.2, h5.1, h5.2.1, h5.2.2, h6.1, h6.2.1, h6.2.2,
        h7.1, h7.2.1, h7.2.2]

/-- C5: for every implemented dimension, any string that equals none of
the abbreviation, full-name and name-and-abbr forms of any variant
(exact, case-sensitive comparison) is rejected by `from_str` with
`none`. -/
theorem C5_parser_exact_match_only :
    (∀ s : String,
        (∀ u : UnitsRs.LengthUnit, s ≠ u.abbr ∧ s ≠ u.name ∧ s ≠ u.name_and_abbr) →
        UnitsRs.LengthUnit.from_str s = none) ∧
    (∀ s : String,
        (∀ u : UnitsRs.MassUnit, s ≠ u.abbr ∧ s ≠ u.name ∧ s ≠ u.name_and_abbr) →
        UnitsRs.MassUnit.from_str s = none) ∧
    (∀ s : String,
        (∀ u : UnitsRs.TimeUnit, s ≠ u.abbr ∧ s ≠ u.name ∧ s ≠ u.name_and_abbr) →
        UnitsRs.TimeUnit.from_str s = none) ∧
    (∀ s : String,
        (∀ u : UnitsRs.TemperatureUnit, s ≠ u.abbr ∧ s ≠ u.name ∧ s ≠ u.name_and_abbr) →
        UnitsRs.TemperatureUnit.from_str s = none) ∧
    (∀ s : String,
        (∀ u : UnitsRs.VelocityUnit, s ≠ u.abbr ∧ s ≠ u.name ∧ s ≠ u.name_and_abbr) →
        UnitsRs.VelocityUnit.from_str s = none) ∧
    (∀ s : String,
        (∀ u : UnitsRs.ForceUnit, s ≠ u.abbr ∧ s ≠ u.name ∧ s ≠ u.name_and_abbr) →
        UnitsRs.ForceUnit.from_str s = none) ∧
    (∀ s : String,
        (∀ u : UnitsRs.PressureUnit, s ≠ u.abbr ∧ s ≠ u.name ∧ s ≠ u.name_and_abbr) →
        UnitsRs.PressureUnit.from_str s = none) :=
  ⟨length_from_str_unmatched, mass_from_str_unmatched, time_from_str_unmatched,
   temperature_from_str_unmatched, velocity_from_str_unmatched,
   force_from_str_unmatched, pressure_from_str_unmatched⟩

/-- Witness for C5: the garbage string `"not-a-unit"` is rejected by
every dimension's parser, via the general theorem. -/
theorem C5_parser_exact_match_only_witness :
    UnitsRs.LengthUnit.from_str "not-a-unit" = none ∧
    UnitsRs.MassUnit.from_str "not-a-unit" = none ∧
    UnitsRs.TimeUnit.from_str "not-a-unit" = none ∧
    UnitsRs.TemperatureUnit.from_str "not-a-unit" = none ∧
    UnitsRs.VelocityUnit.from_str "not-a-unit" = none ∧
    UnitsRs.ForceUnit.from_str "not-a-unit" = none ∧
    UnitsRs.PressureUnit.from_str "not-a-unit" = none :=
  ⟨C5_parser_exact_match_only.1 "not-a-unit"
      (by intro u; cases u <;> exact ⟨by decide, by decide, by decide⟩),
   C5_parser_exact_match_only.2.1 "not-a-unit"
      (by intro u; cases u <;> exact ⟨by decide, by decide, by decide⟩),
   C5_parser_exact_match_only.2.2.1 "not-a-unit"
      (by intro u; cases u <;> exact ⟨by decide, by decide, by decide⟩),
   C5_parser_exact_match_only.2.2.2.1 "not-a-unit"
      (by intro u; cases u <;> exact ⟨by decide, by decide, by decide⟩),
   C5_parser_exact_match_only.2.2.2.2.1 "not-a-unit"
      (by intro u; cases u <;> exact ⟨by decide, by decide, by decide⟩),
   C5_parser_exact_match_only.2.2.2.2.2.1 "not-a-unit"
      (by intro u; cases u <;> exact ⟨by decide, by decide, by decide⟩),
   C5_parser_exact_match_only.2.2.2.2.2.2 "not-a-unit"
      (by intro u; cases u <;> exact ⟨by decide, by decide, by decide⟩)⟩

/-- C9: within each implemented dimension the textual projections are
pairwise distinct — two distinct variants never share an abbreviation or
a name. -/
theorem C9_projections_pairwise_distinct :
    (∀ u v : UnitsRs.LengthUnit, u ≠ v → u.abbr ≠ v.abbr ∧ u.name ≠ v.name) ∧
    (∀ u v : UnitsRs.MassUnit, u ≠ v → u.abbr ≠ v.abbr ∧ u.name ≠ v.name) ∧
    (∀ u v : UnitsRs.TimeUnit, u ≠ v → u.abbr ≠ v.abbr ∧ u.name ≠ v.name) ∧
    (∀ u v : UnitsRs.TemperatureUnit, u ≠ v → u.abbr ≠ v.abbr ∧ u.name ≠ v.name) ∧
    (∀ u v : UnitsRs.VelocityUnit, u ≠ v → u.abbr ≠ v.abbr ∧ u.name ≠ v.name) ∧
    (∀ u v : UnitsRs.ForceUnit, u ≠ v → u.abbr ≠ v.abbr ∧ u.name ≠ v.name) ∧
    (∀ u v : UnitsRs.PressureUnit, u ≠ v → u.abbr ≠ v.abbr ∧ u.name ≠ v.name) := by
  refine ⟨?_, ?_, ?_, ?_, ?_, ?_, ?_⟩ <;>
    (intro u v h
     cases u <;> cases v <;>
       first
         | exact absurd rfl h
         | exact ⟨by decide, by decide⟩)

/-- Witness for C9: Millimeters and Centimeters are distinct length
variants, so their abbreviation and name differ, via the general
theorem. -/
theorem C9_projections_pairwise_distinct_witness :
    UnitsRs.LengthUnit.Millimeters.abbr ≠ UnitsRs.LengthUnit.Centimeters.abbr ∧
    UnitsRs.LengthUnit.Millimeters.name ≠ UnitsRs.LengthUnit.Centimeters.name :=
  C9_projections_pairwise_distinct.1 .Millimeters .Centimeters (by decide)

/-- C10: the temperature abbreviations for Celsius, Fahrenheit and
Rankine carry the degree sign, so the bare strings "C", "F" and "R" are
not recognized by `TemperatureUnit::from_str`; among temperature
abbreviations only "K" parses without a degree sign. -/
theorem C10_temperature_degree_sign :
    UnitsRs.TemperatureUnit.Celsius.abbr = "°C" ∧
    UnitsRs.TemperatureUnit.Fahrenheit.abbr = "°F" ∧
    UnitsRs.TemperatureUnit.Rankine.abbr = "°R" ∧
    UnitsRs.TemperatureUnit.Kelvin.abbr = "K" ∧
    UnitsRs.TemperatureUnit.from_str "C" = none ∧
    UnitsRs.TemperatureUnit.from_str "F" = none ∧
    UnitsRs.TemperatureUnit.from_str "R" = none ∧
    UnitsRs.TemperatureUnit.from_str "K" = some .Kelvin := by
  decide

/-- C6 counterexample: `LengthValue::new(100.0, Kilometers)` does NOT
store the magnitude 100 as-is — it stores the Meters-converted magnitude
100000.  This refutes the claim that `new(value, unit)` stores the pair
unconverted. -/
theorem C6_new_stores_as_is_counterexample :
    (ValuesRs.LengthValue.new 100 (.Length .Kilometers)).map ValuesRs.LengthValue.value
      = some 100000 ∧ (100000 : ℚ) ≠ 100 := by
  refine ⟨?_, by norm_num⟩
  norm_num [ValuesRs.LengthValue.new, UDraft.LengthUnit.convert, UDraft.LengthUnit.default]

/-- C6 amended: for every value wrapper of `src/values.rs`, `new(value,
unit)` converts the magnitude from the given unit into the dimension's
default (base) unit and stores that converted magnitude; the stored
magnitude equals `value` exactly when `unit` is the default unit. -/
theorem C6_new_converts_to_default_unit :
    (∀ (v : ℚ) (u : UDraft.LengthUnit),
        ValuesRs.LengthValue.new v (.Length u)
          = some ⟨UDraft.LengthUnit.convert v u UDraft.LengthUnit.default⟩ ∧
        ValuesRs.LengthValue.new v (.Length UDraft.LengthUnit.default) = some ⟨v⟩) ∧
    (∀ (v : ℚ) (u : UDraft.MassUnit),
        ValuesRs.MassValue.new v (.Mass u)
          = some ⟨UDraft.MassUnit.convert v u UDraft.MassUnit.default⟩ ∧
        ValuesRs.MassValue.new v (.Mass UDraft.MassUnit.default) = some ⟨v⟩) ∧
    (∀ (v : ℚ) (u : UDraft.TimeUnit),
        ValuesRs.TimeValue.new v (.Time u)
          = some ⟨UDraft.TimeUnit.convert v u UDraft.TimeUnit.default⟩ ∧
        ValuesRs.TimeValue.new v (.Time UDraft.TimeUnit.default) = some ⟨v⟩) ∧
    (∀ (v : ℚ) (u : UDraft.TemperatureUnit),
        ValuesRs.TemperatureValue.new v (.Temperature u)
          = some ⟨UDraft.TemperatureUnit.convert v u UDraft.TemperatureUnit.default⟩ ∧
        ValuesRs.TemperatureValue.new v (.Temperature UDraft.TemperatureUnit.default) = some ⟨v⟩) ∧
    (∀ (v : ℚ) (u : UDraft.VelocityUnit),
        ValuesRs.VelocityValue.new v (.Velocity u)
          = some ⟨UDraft.VelocityUnit.convert v u UDraft.VelocityUnit.default⟩ ∧
        ValuesRs.VelocityValue.new v (.Velocity UDraft.VelocityUnit.default) = some ⟨v⟩) ∧
    (∀ (v : ℚ) (u : UDraft.ForceUnit),
        ValuesRs.ForceValue.new v (.Force u)
          = some ⟨UDraft.ForceUnit.convert v u UDraft.ForceUnit.default⟩ ∧
        ValuesRs.ForceValue.new v (.Force UDraft.ForceUnit.default) = some ⟨v⟩) ∧
    (∀ (v : ℚ) (u : UDraft.PressureUnit),
        ValuesRs.PressureValue.new v (.Pressure u)
          = some ⟨UDraft.PressureUnit.convert v u UDraft.PressureUnit.default⟩ ∧
        ValuesRs.PressureValue.new v (.Pressure UDraft.PressureUnit.default) = some ⟨v⟩) ∧
    (∀ (v : ℚ) (u : UDraft.BearingUnit),
        ValuesRs.BearingValue.new v (.Bearing u)
          = some ⟨UDraft.BearingUnit.convert v u UDraft.BearingUnit.default⟩ ∧
        ValuesRs.BearingValue.new v (.Bearing UDraft.BearingUnit.default) = some ⟨v⟩) ∧
    (∀ (v : ℚ) (u : UDraft.AccelerationUnit),
        ValuesRs.AccelerationValue.new v (.Acceleration u)
          = some ⟨UDraft.AccelerationUnit.convert v u UDraft.AccelerationUnit.default⟩ ∧
        ValuesRs.AccelerationValue.new v (.Acceleration UDraft.AccelerationUnit.default) = some ⟨v⟩) := by
  refine ⟨?_, ?_, ?_, ?_, ?_, ?_, ?_, ?_, ?_⟩ <;> exact fun v u => ⟨rfl, rfl⟩

/-- C7: the concrete fixtures of the `src/values.rs` tests — a Length
value built as 100 Meters reads as exactly 0.1 Kilometers, 328.084 Feet
and 500000/127 Inches (which is approximately 3937.0079); a Mass value
built as 100 Kilograms reads as exactly 100000 Grams and
220.46226218488 Pounds (approximately 220.462262). -/
theorem C7_concrete_fixtures :
    ValuesRs.LengthValue.new 100 (.Length .Meters) = some ⟨100⟩ ∧
    ((⟨100⟩ : ValuesRs.LengthValue).get (.Length .Kilometers)).map ValuesRs.LengthValue.value
      = some 0.1 ∧
    ((⟨100⟩ : ValuesRs.LengthValue).get (.Length .Feet)).map ValuesRs.LengthValue.value
      = some 328.084 ∧
    ((⟨100⟩ : ValuesRs.LengthValue).get (.Length .Inches)).map ValuesRs.LengthValue.value
      = some (500000 / 127) ∧
    |(500000 / 127 : ℚ) - 3937.0079| < 0.00005 ∧
    ValuesRs.MassValue.new 100 (.Mass .Kilograms) = some ⟨100⟩ ∧
    ((⟨100⟩ : ValuesRs.MassValue).get (.Mass .Grams)).map ValuesRs.MassValue.value
      = some 100000 ∧
    ((⟨100⟩ : ValuesRs.MassValue).get (.Mass .PoundsMass)).map ValuesRs.MassValue.value
      = some 220.46226218488 ∧
    |(220.46226218488 : ℚ) - 220.462262| < 0.0000005 := by
  refine ⟨rfl, ?_, ?_, ?_, ?_, rfl, ?_, ?_, ?_⟩
  · norm_num [ValuesRs.LengthValue.get, UDraft.LengthUnit.convert, UDraft.LengthUnit.default]
  · norm_num [ValuesRs.LengthValue.get, UDraft.LengthUnit.convert, UDraft.LengthUnit.default]
  · norm_num [ValuesRs.LengthValue.get, UDraft.LengthUnit.convert, UDraft.LengthUnit.default]
  · rw [abs_lt]; constructor <;> norm_num
  · norm_num [ValuesRs.MassValue.get, UDraft.MassUnit.convert, UDraft.MassUnit.default]
  · norm_num [ValuesRs.MassValue.get, UDraft.MassUnit.convert, UDraft.MassUnit.default]
  · rw [abs_lt]; constructor <;> norm_num

/-- C8: for every value wrapper and each of `new`, `get` and `set`,
passing a unit variant of a different dimension reaches the
invalid-unit branch (modelled `none`) and never produces a numeric
result. -/
theorem C8_cross_dimension_fault :
    (∀ (v : ℚ) (w : ValuesRs.LengthValue) (u : UDraft.UnitEnum),
        (∀ x : UDraft.LengthUnit, u ≠ .Length x) →
        ValuesRs.LengthValue.new v u = none ∧ w.get u = none ∧ w.set v u = none) ∧
    (∀ (v : ℚ) (w : ValuesRs.MassValue) (u : UDraft.UnitEnum),
        (∀ x : UDraft.MassUnit, u ≠ .Mass x) →
        ValuesRs.MassValue.new v u = none ∧ w.get u = none ∧ w.set v u = none) ∧
    (∀ (v : ℚ) (w : ValuesRs.TimeValue) (u : UDraft.UnitEnum),
        (∀ x : UDraft.TimeUnit, u ≠ .Time x) →
        ValuesRs.TimeValue.new v u = none ∧ w.get u = none ∧ w.set v u = none) ∧
    (∀ (v : ℚ) (w : ValuesRs.TemperatureValue) (u : UDraft.UnitEnum),
        (∀ x : UDraft.TemperatureUnit, u ≠ .Temperature x) →
        ValuesRs.TemperatureValue.new v u = none ∧ w.get u = none ∧ w.set v u = none) ∧
    (∀ (v : ℚ) (w : ValuesRs.VelocityValue) (u : UDraft.UnitEnum),
        (∀ x : UDraft.VelocityUnit, u ≠ .Velocity x) →
        ValuesRs.VelocityValue.new v u = none ∧ w.get u = none ∧ w.set v u = none) ∧
    (∀ (v : ℚ) (w : ValuesRs.ForceValue) (u : UDraft.UnitEnum),
        (∀ x : UDraft.ForceUnit, u ≠ .Force x) →
        ValuesRs.ForceValue.new v u = none ∧ w.get u = none ∧ w.set v u = none) ∧
    (∀ (v : ℚ) (w : ValuesRs.PressureValue) (u : UDraft.UnitEnum),
        (∀ x : UDraft.PressureUnit, u ≠ .Pressure x) →
        ValuesRs.PressureValue.new v u = none ∧ w.get u = none ∧ w.set v u = none) ∧
    (∀ (v : ℚ) (w : ValuesRs.BearingValue) (u : UDraft.UnitEnum),
        (∀ x : UDraft.BearingUnit, u ≠ .Bearing x) →
        ValuesRs.BearingValue.new v u = none ∧ w.get u = none ∧ w.set v u = none) ∧
    (∀ (v : ℚ) (w : ValuesRs.AccelerationValue) (u : UDraft.UnitEnum),
        (∀ x : UDraft.AccelerationUnit, u ≠ .Acceleration x) →
        ValuesRs.AccelerationValue.new v u = none ∧ w.get u = none ∧ w.set v u = none) := by
  refine ⟨?_, ?_, ?_, ?_, ?_, ?_, ?_, ?_, ?_⟩ <;>
    (intro v w u h
     cases u <;>
       first
         | exact absurd rfl (h _)
         | exact ⟨rfl, rfl, rfl⟩)

/-- Witness for C8: each wrapper rejects a concrete unit of a foreign
dimension in all three operations, via the general theorem. -/
theorem C8_cross_dimension_fault_witness :
    (ValuesRs.LengthValue.new 1 (.Mass .Kilograms) = none ∧
     (⟨1⟩ : ValuesRs.LengthValue).get (.Mass .Kilograms) = none ∧
     (⟨1⟩ : ValuesRs.LengthValue).set 1 (.Mass .Kilograms) = none) ∧
    (ValuesRs.MassValue.new 1 (.Length .Meters) = none ∧
     (⟨1⟩ : ValuesRs.MassValue).get (.Length .Meters) = none ∧
     (⟨1⟩ : ValuesRs.MassValue).set 1 (.Length .Meters) = none) ∧
    (ValuesRs.TimeValue.new 1 (.Length .Meters) = none ∧
     (⟨1⟩ : ValuesRs.TimeValue).get (.Length .Meters) = none ∧
     (⟨1⟩ : ValuesRs.TimeValue).set 1 (.Length .Meters) = none) ∧
    (ValuesRs.TemperatureValue.new 1 (.Length .Meters) = none ∧
     (⟨1⟩ : ValuesRs.TemperatureValue).get (.Length .Meters) = none ∧
     (⟨1⟩ : ValuesRs.TemperatureValue).set 1 (.Length .Meters) = none) ∧
    (ValuesRs.VelocityValue.new 1 (.Length .Meters) = none ∧
     (⟨1⟩ : ValuesRs.VelocityValue).get (.Length .Meters) = none ∧
     (⟨1⟩ : ValuesRs.VelocityValue).set 1 (.Length .Meters) = none) ∧
    (ValuesRs.ForceValue.new 1 (.Length .Meters) = none ∧
     (⟨1⟩ : ValuesRs.ForceValue).get (.Length .Meters) = none ∧
     (⟨1⟩ : ValuesRs.ForceValue).set 1 (.Length .Meters) = none) ∧
    (ValuesRs.PressureValue.new 1 (.Length .Meters) = none ∧
     (⟨1⟩ : ValuesRs.PressureValue).get (.Length .Meters) = none ∧
     (⟨1⟩ : ValuesRs.PressureValue).set 1 (.Length .Meters) = none) ∧
    (ValuesRs.BearingValue.new 1 (.Length .Meters) = none ∧
     (⟨1⟩ : ValuesRs.BearingValue).get (.Length .Meters) = none ∧
     (⟨1⟩ : ValuesRs.BearingValue).set 1 (.Length .Meters) = none) ∧
    (ValuesRs.AccelerationValue.new 1 (.Length .Meters) = none ∧
     (⟨1⟩ : ValuesRs.AccelerationValue).get (.Length .Meters) = none ∧
     (⟨1⟩ : ValuesRs.AccelerationValue).set 1 (.Length .Meters) = none) :=
  ⟨C8_cross_dimension_fault.1 1 ⟨1⟩ (.Mass .Kilograms)
      (fun _ hx => UDraft.UnitEnum.noConfusion hx),
   C8_cross_dimension_fault.2.1 1 ⟨1⟩ (.Length .Meters)
      (fun _ hx => UDraft.UnitEnum.noConfusion hx),
   C8_cross_dimension_fault.2.2.1 1 ⟨1⟩ (.Length .Meters)
      (fun _ hx => UDraft.UnitEnum.noConfusion hx),
   C8_cross_dimension_fault.2.2.2.1 1 ⟨1⟩ (.Length .Meters)
      (fun _ hx => UDraft.UnitEnum.noConfusion hx),
   C8_cross_dimension_fault.2.2.2.2.1 1 ⟨1⟩ (.Length .Meters)
      (fun _ hx => UDraft.UnitEnum.noConfusion hx),
   C8_cross_dimension_fault.2.2.2.2.2.1 1 ⟨1⟩ (.Length .Meters)
      (fun _ hx => UDraft.UnitEnum.noConfusion hx),
   C8_cross_dimension_fault.2.2.2.2.2.2.1 1 ⟨1⟩ (.Length .Meters)
      (fun _ hx => UDraft.UnitEnum.noConfusion hx),
   C8_cross_dimension_fault.2.2.2.2.2.2.2.1 1 ⟨1⟩ (.Length .Meters)
      (fun _ hx => UDraft.UnitEnum.noConfusion hx),
   C8_cross_dimension_fault.2.2.2.2.2.2.2.2 1 ⟨1⟩ (.Length .Meters)
      (fun _ hx => UDraft.UnitEnum.noConfusion hx)⟩

/-- Helper: characterization of `Int.log 2` by binade bounds. -/
theorem int_log2_eq {q : ℚ} {e : ℤ} (hq : 0 < q)
    (h1 : (2 : ℚ) ^ e ≤ q) (h2 : q < (2 : ℚ) ^ (e + 1)) : Int.log 2 q = e := by
  have hb : 1 < (2 : ℕ) := one_lt_two
  have hle : e ≤ Int.log 2 q := (Int.zpow_le_iff_le_log hb hq).1 (by exact_mod_cast h1)
  have hlt : Int.log 2 q < e + 1 := (Int.lt_zpow_iff_log_lt hb hq).1 (by exact_mod_cast h2)
  omega

/-- Helper: `rne` rounds down when the fractional part is below one
half. -/
theorem rne_eq_of_lt_half {x : ℚ} {n : ℤ} (h1 : (n : ℚ) ≤ x) (h2 : x - n < 1 / 2) :
    rne x = n := by
  have hf : ⌊x⌋ = n := by
    rw [Int.floor_eq_iff]
    exact ⟨h1, by linarith⟩
  unfold rne
  rw [hf, if_pos h2]

/-- Helper: evaluation of `round64` on a positive value from its binade
bounds and the round-down position of its scaled mantissa. -/
theorem round64_pos_eq {q : ℚ} {e n : ℤ} (hq : 0 < q)
    (h1 : (2 : ℚ) ^ e ≤ q) (h2 : q < (2 : ℚ) ^ (e + 1)) (he : (-1022 : ℤ) ≤ e)
    (hn1 : (n : ℚ) ≤ q / 2 ^ (e - 52)) (hn2 : q / 2 ^ (e - 52) - n < 1 / 2) :
    round64 q = n * 2 ^ (e - 52) := by
  unfold round64
  rw [if_neg hq.ne', abs_of_pos hq, int_log2_eq hq h1 h2, max_eq_left he,
      if_neg (not_lt.2 hq.le), rne_eq_of_lt_half hn1 hn2, one_mul]

/-- Helper: the binary64 value of the literal 273.15. -/
theorem round64_eval_273_15 :
    round64 273.15 = 4805305618032230 * (2 : ℚ) ^ (-44 : ℤ) := by
  have h := round64_pos_eq (q := 273.15) (e := 8) (n := 4805305618032230)
    (by norm_num) (by norm_num) (by norm_num) (by norm_num) (by norm_num) (by norm_num)
  rw [h]; norm_num

/-- Helper: the binary64 value of the literal 1e-20. -/
theorem round64_eval_1e20 :
    round64 (1e-20) = 6646139978924579 * (2 : ℚ) ^ (-119 : ℤ) := by
  have h := round64_pos_eq (q := 1e-20) (e := -67) (n := 6646139978924579)
    (by norm_num) (by norm_num) (by norm_num) (by norm_num) (by norm_num) (by norm_num)
  rw [h]; norm_num

/-- Helper: adding the binary64 value of 1e-20 to the binary64 value of
273.15 rounds back to the latter — the tiny addend is absorbed. -/
theorem round64_eval_sum :
    round64 (6646139978924579 * (2 : ℚ) ^ (-119 : ℤ) + 4805305618032230 * (2 : ℚ) ^ (-44 : ℤ))
      = 4805305618032230 * (2 : ℚ) ^ (-44 : ℤ) := by
  have h := round64_pos_eq
    (q := 6646139978924579 * (2 : ℚ) ^ (-119 : ℤ) + 4805305618032230 * (2 : ℚ) ^ (-44 : ℤ))
    (e := 8) (n := 4805305618032230)
    (by norm_num) (by norm_num) (by norm_num) (by norm_num) (by norm_num) (by norm_num)
  rw [h]; norm_num

/-- Helper: rounding zero gives zero. -/
theorem round64_zero : round64 0 = 0 := by
  simp [round64]

/-- Helper: the binary64 value of 273.15 is representable, so rounding
it again leaves it unchanged. -/
theorem round64_idem_273_15 :
    round64 (4805305618032230 * (2 : ℚ) ^ (-44 : ℤ)) = 4805305618032230 * (2 : ℚ) ^ (-44 : ℤ) := by
  have h := round64_pos_eq (q := 4805305618032230 * (2 : ℚ) ^ (-44 : ℤ))
    (e := 8) (n := 4805305618032230)
    (by norm_num) (by norm_num) (by norm_num) (by norm_num) (by norm_num) (by norm_num)
  rw [h]; norm_num

/-- C1 counterexample: at dimension Temperature with A = B = Celsius and
the finite f64 value v nearest 1e-20, the binary64 round trip
`convert(convert(v, A, B), B, A)` returns exactly 0, which is not within
a 1e-9 relative tolerance of v — refuting the claim as stated over f64
arithmetic. -/
theorem C1_round_trip_counterexample :
    ¬ (|UnitsRs.TemperatureUnit.convert64 .Celsius
          (UnitsRs.TemperatureUnit.convert64 .Celsius (round64 1e-20) .Celsius) .Celsius
        - round64 1e-20| ≤ 1e-9 * |round64 1e-20|) := by
  have hrt : UnitsRs.TemperatureUnit.convert64 .Celsius
      (UnitsRs.TemperatureUnit.convert64 .Celsius (round64 1e-20) .Celsius) .Celsius = 0 := by
    show f64_sub (f64_add (f64_sub (f64_add (round64 1e-20) (round64 273.15)) (round64 273.15))
        (round64 273.15)) (round64 273.15) = 0
    rw [round64_eval_1e20, round64_eval_273_15]
    unfold f64_add f64_sub
    rw [round64_eval_sum, sub_self, round64_zero, zero_add, round64_idem_273_15, sub_self,
        round64_zero]
  rw [hrt, round64_eval_1e20, zero_sub, abs_neg]
  have hV : (0 : ℚ) < 6646139978924579 * (2 : ℚ) ^ (-119 : ℤ) := by positivity
  rw [abs_of_pos hV]
  intro hle
  nlinarith [hV]

/-- C3: evaluation of the code at the failing input under binary64
semantics — converting the f64 value nearest 1e-20 from Celsius to
Celsius yields exactly 0, not the input: `(v + 273.15) - 273.15`
absorbs the tiny addend, so `convert(v, A, A)` is not bit-for-bit `v`
for every variant, contrary to the claim and the spec's identity
requirement. -/
theorem C3_identity_not_bit_exact :
    UnitsRs.TemperatureUnit.convert64 .Celsius (round64 1e-20) .Celsius = 0 ∧
    round64 (1e-20 : ℚ) ≠ 0 := by
  constructor
  · show f64_sub (f64_add (round64 1e-20) (round64 273.15)) (round64 273.15) = 0
    rw [round64_eval_1e20, round64_eval_273_15]
    unfold f64_add f64_sub
    rw [round64_eval_sum, sub_self]
    simp [round64]
  · rw [round64_eval_1e20]
    positivity
